import Mathlib

/-!
# Shallow embedding of `am232x/am232x.py` (pyam232x)

This file embeds the sensor-session logic of the `AM232x` Python class as
pure Lean functions and proves the specification claims about it.

Modelling conventions:

* The mutable object state (`self._wakeup`, `self._write_mode`,
  `self._measured`, the lazily created attributes `_raw_data`, `_humidity`,
  `_temperature`, `_discomfort`) becomes an explicit `AMState` record;
  `hasattr`/`delattr` become `Option` fields.  The wall-clock field
  `self._read_time` is not modelled (real time is outside the embedding).
* Every bus access and every `usleep` is recorded in an event trace, so that
  theorems can speak about how many bus operations a method performs and
  which delays it observes.
* The i2c block read that `read()` performs is modelled by an oracle
  `fetch : Nat → List Nat` giving the bytes delivered by the k-th
  successful bus read of the session; the bus-level retry wrapper
  `_func_i2c_retry` is modelled separately (over an attempt-indexed
  transport `f : Nat → Except ε α`) and its success/propagation behaviour
  is proved on its own.  In `measure`/`set_write_mode` the wrapped writes
  are modelled on the success path of that wrapper.
* Python exceptions become `Except` results.  `ReceiveAM232xDataError` and
  `AM232xCrcCheckError` are the two constructors of `AM232xError` (both
  subclass `AM232xError` in `am232x/exceptions.py`; the `chip_name` label,
  which only decorates the message, is dropped).
* Python floats are modelled as exact rationals (`ℚ`); the arithmetic in
  the claims stays far below any precision concern.
-/

namespace AM232x

/-- The two data-validation exceptions of `am232x.exceptions`, both
subclasses of `AM232xError` (which `read()` catches). -/
inductive AM232xError where
  | receiveDataError (error_code : Nat)
  | crcCheckError (recv_crc calc_crc : Nat)
  deriving DecidableEq, Repr

/-- I2C address of AM2321/AM2322 (`chip_addr = 0x5c`). -/
def chip_addr : Nat := 0x5c

/-- `wait_wakeup = 800` µs. -/
def wait_wakeup : Nat := 800

/-- `wait_writemode = 1500` µs. -/
def wait_writemode : Nat := 1500

/-- `wait_readmode = 30` µs. -/
def wait_readmode : Nat := 30

/-- `wait_refresh = 2000000` µs, the default `retry_wait` of `read()`. -/
def wait_refresh : Nat := 2000000

/-- One inner round of the CRC loop of `check_crc`:
`if (clc_crcsum & 1): clc_crcsum >>= 1; clc_crcsum ^= 0xa001 else: clc_crcsum >>= 1`. -/
def crcRound (c : Nat) : Nat :=
  if c &&& 1 = 1 then (c >>> 1) ^^^ 0xa001 else c >>> 1

/-- The inner `for j in range(8)` loop of `check_crc`, iterating `crcRound`. -/
def crcShift : Nat → Nat → Nat
  | 0, c => c
  | j + 1, c => crcShift j (crcRound c)

/-- One iteration of the outer CRC loop: `clc_crcsum ^= raw[i]` followed by
eight `crcRound`s. -/
def crcByte (c b : Nat) : Nat := crcShift 8 (c ^^^ b)

/-- The CRC-16/Modbus computation of `check_crc` (initial value `0xffff`,
polynomial `0xa001`, LSB first), folded over a list of bytes. -/
def crc16 (bs : List Nat) : Nat := bs.foldl crcByte 0xffff

/-- The checksum received in the reading: `raw[7] << 8 | raw[6]`. -/
def rcv_crcsum (raw : List Nat) : Nat := (raw.getD 7 0) <<< 8 ||| raw.getD 6 0

/-- The checksum computed by `check_crc`: the CRC over `raw[0..5]`
(`for i in range(6)`). -/
def clc_crcsum (raw : List Nat) : Nat := crc16 (raw.take 6)

/-- `AM232x.check_crc`: raise `AM232xCrcCheckError(recv_crc, calc_crc)` when
the received and computed checksums differ, otherwise return normally. -/
def check_crc (raw : List Nat) : Except AM232xError Unit :=
  if rcv_crcsum raw ≠ clc_crcsum raw then
    .error (.crcCheckError (rcv_crcsum raw) (clc_crcsum raw))
  else
    .ok ()

/-- `AM232x.check_err`: raise `ReceiveAM232xDataError(error_code)` when
`raw[2] >= 0x80`, otherwise return normally. -/
def check_err (raw : List Nat) : Except AM232xError Unit :=
  if raw.getD 2 0 ≥ 0x80 then .error (.receiveDataError (raw.getD 2 0)) else .ok ()

/-- The validation block of `read()`: `if check_err: self.check_err()` then
`if check_crc: self.check_crc()`; the first raised error aborts. -/
def validate (ce cc : Bool) (raw : List Nat) : Except AM232xError Unit :=
  match (if ce then check_err raw else .ok ()) with
  | .error e => .error e
  | .ok _ => if cc then check_crc raw else .ok ()

/-- Observable events of a session: raw smbus calls (with the success of the
single unretried write that `wakeup` issues), the retried writes/read on
their success path, and every `usleep`. -/
inductive Event where
  | i2c_write_byte (addr reg data : Nat) (ok : Bool)
  | write_byte_data (reg data : Nat)
  | write_i2c_block_data (reg : Nat) (data : List Nat)
  | read_i2c_block_data (reg len : Nat)
  | sleep (usec : Nat)
  deriving DecidableEq, Repr

/-- The mutable state of an `AM232x` object: the three protocol flags and
the four lazily created cached attributes. -/
structure AMState where
  _wakeup : Bool
  _write_mode : Bool
  _measured : Bool
  _raw_data : Option (List Nat)
  _humidity : Option ℚ
  _temperature : Option ℚ
  _discomfort : Option ℚ
  deriving DecidableEq, Repr

/-- The state right after `__init__` (all flags false, no cached data);
`__init__(wakeup=True)` additionally runs `wakeup()` on this state. -/
def initState : AMState :=
  { _wakeup := false, _write_mode := false, _measured := false,
    _raw_data := none, _humidity := none, _temperature := none,
    _discomfort := none }

/-- `AM232x._del_properties`: delete the cached `_humidity`, `_temperature`
and `_discomfort` attributes. -/
def _del_properties (s : AMState) : AMState :=
  { s with _humidity := none, _temperature := none, _discomfort := none }

/-- `AM232x.wakeup`: no-op when already awake; otherwise issue the single
dummy `write_byte_data(chip_addr, 0x00, 0x00)` (whose outcome `ok` is
recorded but whose failure is swallowed by the bare `except: pass`), mark
awake, and sleep `wait_wakeup`. -/
def wakeup (ok : Bool) (s : AMState) : AMState × List Event :=
  if s._wakeup then (s, [])
  else
    ({ s with _wakeup := true },
     [Event.i2c_write_byte chip_addr 0x00 0x00 ok, Event.sleep wait_wakeup])

/-- `AM232x.set_write_mode`: retried write of `0x00` to register `0x00`
(success path of `_func_i2c_retry`), mark write-mode, sleep
`wait_writemode`. -/
def set_write_mode (s : AMState) : AMState × List Event :=
  ({ s with _write_mode := true },
   [Event.write_byte_data 0x00 0x00, Event.sleep wait_writemode])

/-- `AM232x.measure`: `wakeup()`; `set_write_mode()` unless write-mode is
already set; retried block write of `[0x00, 0x04]` to register `0x03`;
mark measured; sleep `wait_readmode`; delete `_raw_data` and the derived
caches. -/
def measure (ok : Bool) (s : AMState) : AMState × List Event :=
  let w := wakeup ok s
  let m := if w.1._write_mode then (w.1, []) else set_write_mode w.1
  (_del_properties { m.1 with _measured := true, _raw_data := none },
   w.2 ++ m.2 ++ [Event.write_i2c_block_data 0x03 [0x00, 0x04], Event.sleep wait_readmode])

/-- Outcome of one pass of the `while True` body of `AM232x.read`: either
the loop reaches its `return` (`done`), or validation raised an
`AM232xError` that the `except` clause caught (`caught`). -/
inductive ReadIter where
  | done (res : Except AM232xError (List Nat)) (s : AMState) (t : List Event)
  | caught (e : AM232xError) (s : AMState) (t : List Event)

/-- One pass of the `while True` body of `AM232x.read`: `measure()` if not
measured; if no raw data is cached, read 8 bytes from register `0x00` (the
oracle `fetch` applied to the index `idx` of this bus read), delete the
derived caches, clear the awake/write-mode flags, and validate; a cached
raw reading is returned as is. -/
def readIter (fetch : Nat → List Nat) (ok ce cc : Bool) (idx : Nat) (s : AMState) :
    ReadIter :=
  let ms := if s._measured then (s, ([] : List Event)) else measure ok s
  match ms.1._raw_data with
  | some raw => .done (.ok raw) ms.1 ms.2
  | none =>
    let raw := fetch idx
    let s2 := _del_properties
      { ms.1 with _raw_data := some raw, _wakeup := false, _write_mode := false }
    let t2 := ms.2 ++ [Event.read_i2c_block_data 0x00 8]
    match validate ce cc raw with
    | .ok _ => .done (.ok raw) s2 t2
    | .error e => .caught e s2 t2

/-- The `while True` loop of `AM232x.read`, with the retry counter `cnt`
replaced by the remaining budget `remaining = retry_num - cnt`: on a caught
validation error, if budget remains, mark `measured := false`, sleep
`retry_wait` and loop; otherwise re-raise.  Returns the result
(`self._raw_data` or the raised error), the final state and the event
trace. -/
def readLoop (fetch : Nat → List Nat) (ok ce cc : Bool) (retry_wait : Nat) :
    Nat → Nat → AMState → Except AM232xError (List Nat) × AMState × List Event
  | idx, 0, s =>
    match readIter fetch ok ce cc idx s with
    | .done res s1 t1 => (res, s1, t1)
    | .caught e s2 t2 => (.error e, s2, t2)
  | idx, r + 1, s =>
    match readIter fetch ok ce cc idx s with
    | .done res s1 t1 => (res, s1, t1)
    | .caught _e s2 t2 =>
      let k := readLoop fetch ok ce cc retry_wait (idx + 1) r
        { s2 with _measured := false }
      (k.1, k.2.1, t2 ++ Event.sleep retry_wait :: k.2.2)

/-- `AM232x.read(check_err, check_crc, retry_num, retry_wait)` (defaults in
the source: `true, true, 10, 2000000`). -/
def read (fetch : Nat → List Nat) (ok ce cc : Bool) (retry_num retry_wait : Nat)
    (s : AMState) : Except AM232xError (List Nat) × AMState × List Event :=
  readLoop fetch ok ce cc retry_wait 0 retry_num s

/-- `AM232x._calc(high_idx, low_idx)`: run `read()` (with its defaults) if
no raw data is cached, then return `(raw[high_idx] << 8 | raw[low_idx]) / 10.0`. -/
def _calc (fetch : Nat → List Nat) (ok : Bool) (high_idx low_idx : Nat)
    (s : AMState) : Except AM232xError ℚ × AMState × List Event :=
  match s._raw_data with
  | some raw =>
    (.ok ((((raw.getD high_idx 0) <<< 8 ||| raw.getD low_idx 0 : ℕ) : ℚ) / 10), s, [])
  | none =>
    let out := read fetch ok true true 10 wait_refresh s
    match out.1 with
    | .error e => (.error e, out.2.1, out.2.2)
    | .ok raw =>
      (.ok ((((raw.getD high_idx 0) <<< 8 ||| raw.getD low_idx 0 : ℕ) : ℚ) / 10),
       out.2.1, out.2.2)

/-- The `humidity` property: cached `_humidity`, else `_calc(2, 3)`. -/
def humidity (fetch : Nat → List Nat) (ok : Bool) (s : AMState) :
    Except AM232xError ℚ × AMState × List Event :=
  match s._humidity with
  | some h => (.ok h, s, [])
  | none =>
    let out := _calc fetch ok 2 3 s
    match out.1 with
    | .error e => (.error e, out.2.1, out.2.2)
    | .ok h => (.ok h, { out.2.1 with _humidity := some h }, out.2.2)

/-- The `temperature` property: cached `_temperature`, else `_calc(4, 5)`. -/
def temperature (fetch : Nat → List Nat) (ok : Bool) (s : AMState) :
    Except AM232xError ℚ × AMState × List Event :=
  match s._temperature with
  | some t => (.ok t, s, [])
  | none =>
    let out := _calc fetch ok 4 5 s
    match out.1 with
    | .error e => (.error e, out.2.1, out.2.2)
    | .ok t => (.ok t, { out.2.1 with _temperature := some t }, out.2.2)

/-- The `discomfort` property: cached `_discomfort`, else
`0.81 * temp + 0.01 * hum * (0.99 * temp - 14.3) + 46.3` from the
(possibly just-computed) `humidity` and `temperature`. -/
def discomfort (fetch : Nat → List Nat) (ok : Bool) (s : AMState) :
    Except AM232xError ℚ × AMState × List Event :=
  match s._discomfort with
  | some d => (.ok d, s, [])
  | none =>
    let oh := humidity fetch ok s
    match oh.1 with
    | .error e => (.error e, oh.2.1, oh.2.2)
    | .ok hum =>
      let ot := temperature fetch ok oh.2.1
      match ot.1 with
      | .error e => (.error e, ot.2.1, oh.2.2 ++ ot.2.2)
      | .ok temp =>
        let d : ℚ := 81/100 * temp + 1/100 * hum * (99/100 * temp - 143/10) + 463/10
        (.ok d, { ot.2.1 with _discomfort := some d }, oh.2.2 ++ ot.2.2)

/-- Observable events of the bus-level retry wrapper `_func_i2c_retry`:
the attempted transport invocations (numbered) and the sleeps between
them. -/
inductive RtEvent where
  | call (attempt : Nat)
  | sleep (usec : Nat)
  deriving DecidableEq, Repr

/-- `AM232x._func_i2c_retry(func, args, retry_wait, retry_num)`: call the
transport; on `IOError` sleep `retry_wait` and retry while `cnt < retry_num`,
else re-raise.  The transport is modelled by `f`, indexed by the attempt
number; the loop counter `cnt` is replaced by the remaining budget
`remaining = retry_num - cnt`. -/
def _func_i2c_retry {ε α : Type} (f : Nat → Except ε α) (retry_wait : Nat) :
    Nat → Nat → Except ε α × List RtEvent
  | attempt, remaining =>
    match f attempt with
    | .ok a => (.ok a, [.call attempt])
    | .error e =>
      match remaining with
      | 0 => (.error e, [.call attempt])
      | r + 1 =>
        let k := _func_i2c_retry f retry_wait (attempt + 1) r
        (k.1, .call attempt :: .sleep retry_wait :: k.2)

/-- The trace `_func_i2c_retry` produces when every attempt fails:
`remaining + 1` calls, each retry preceded by a sleep of the configured
wait. -/
def failTrace (retry_wait : Nat) : Nat → Nat → List RtEvent
  | attempt, 0 => [.call attempt]
  | attempt, r + 1 => .call attempt :: .sleep retry_wait :: failTrace retry_wait (attempt + 1) r

/-- Recognise a transport invocation in a retry-wrapper trace. -/
def isCall : RtEvent → Bool
  | .call _ => true
  | .sleep _ => false

/-- Recognise a sleep of exactly `usec` µs in a retry-wrapper trace. -/
def isRtSleep (usec : Nat) : RtEvent → Bool
  | .sleep u => u = usec
  | .call _ => false

/-- Recognise a bus block read in a session trace. -/
def isRead : Event → Bool
  | .read_i2c_block_data _ _ => true
  | _ => false

/-- Recognise a sleep of exactly `usec` µs in a session trace. -/
def isSleep (usec : Nat) : Event → Bool
  | .sleep u => u = usec
  | _ => false

/-- Recognise the measurement command (block write to register `0x03`) in a
session trace. -/
def isMeasureCmd : Event → Bool
  | .write_i2c_block_data reg _ => reg = 0x03
  | _ => false

/-- Recognise the raw (unretried) dummy write issued by `wakeup`. -/
def isWakeWrite : Event → Bool
  | .i2c_write_byte _ _ _ _ => true
  | _ => false

/-- An 8-byte response whose checksum field does not match: bytes 6–7
store 0, but the CRC over the six zero data bytes is 6912. -/
def badRaw : List Nat := [0, 0, 0, 0, 0, 0, 0, 0]

/-- The state of the session at the top of the `read()` loop right after a
validation failure: flags cleared by the fresh read and by the retry
branch, the bad bytes still cached. -/
def failState : AMState :=
  { _wakeup := false, _write_mode := false, _measured := false,
    _raw_data := some badRaw, _humidity := none, _temperature := none,
    _discomfort := none }

/-- The state after `measure()` (whatever the starting state): awake,
write-mode set, measured, all cached data deleted. -/
def measuredState : AMState :=
  { _wakeup := true, _write_mode := true, _measured := true,
    _raw_data := none, _humidity := none, _temperature := none,
    _discomfort := none }

/-- The state right after the fresh bus read inside the `read()` loop:
flags cleared, the just-read bytes cached, derived caches deleted. -/
def freshState (raw : List Nat) : AMState :=
  { _wakeup := false, _write_mode := false, _measured := true,
    _raw_data := some raw, _humidity := none, _temperature := none,
    _discomfort := none }

/-- The events of one full measure-plus-read cycle of the `read()` loop
starting from `failState`. -/
def cycleTrace (ok : Bool) : List Event :=
  [Event.i2c_write_byte chip_addr 0x00 0x00 ok, Event.sleep wait_wakeup,
   Event.write_byte_data 0x00 0x00, Event.sleep wait_writemode,
   Event.write_i2c_block_data 0x03 [0x00, 0x04], Event.sleep wait_readmode,
   Event.read_i2c_block_data 0x00 8]

/-- The trace of `readLoop` on a transport that always delivers `badRaw`,
starting from `failState` with `r` retries left: `r + 1` full cycles with
the outer `wait_refresh` sleep between consecutive cycles. -/
def badTrace (ok : Bool) : Nat → List Event
  | 0 => cycleTrace ok
  | r + 1 => cycleTrace ok ++ Event.sleep wait_refresh :: badTrace ok r

/-- A valid 8-byte reading: humidity field `0x0226` (= 550), temperature
field `0x00E7` (= 231), correct little-endian CRC `0xD151`. -/
def exRaw : List Nat := [0x03, 0x04, 0x02, 0x26, 0x00, 0xE7, 0x51, 0xD1]

/-- A session state holding the validated example reading with no derived
caches. -/
def exState : AMState := { initState with _raw_data := some exRaw }

/-- The cache invariant: whenever no raw reading is cached, none of the
derived caches is present. -/
def cacheInv (s : AMState) : Prop :=
  s._raw_data = none →
    s._humidity = none ∧ s._temperature = none ∧ s._discomfort = none

/-! ## Lemmas and claim theorems -/

/-- When every attempt fails, the retry wrapper propagates the transport
error and its trace is `failTrace`. -/
theorem func_retry_fail {ε α : Type} (f : Nat → Except ε α) (e : ε)
    (hf : ∀ i, f i = .error e) (w : Nat) :
    ∀ n attempt, _func_i2c_retry f w attempt n = (.error e, failTrace w attempt n) := by
  intro n
  induction n with
  | zero => intro attempt; simp [_func_i2c_retry, hf, failTrace]
  | succ r ih => intro attempt; simp [_func_i2c_retry, hf, failTrace, ih]

/-- `failTrace` holds `remaining + 1` transport invocations. -/
theorem failTrace_countCall (w : Nat) :
    ∀ n attempt, (failTrace w attempt n).countP isCall = n + 1 := by
  intro n
  induction n with
  | zero => intro attempt; simp [failTrace, isCall]
  | succ r ih => intro attempt; simp [failTrace, isCall, List.countP_cons, ih]

/-- `failTrace` holds `remaining` sleeps of the configured wait. -/
theorem failTrace_countSleep (w : Nat) :
    ∀ n attempt, (failTrace w attempt n).countP (isRtSleep w) = n := by
  intro n
  induction n with
  | zero => intro attempt; simp [failTrace, isRtSleep, isCall]
  | succ r ih => intro attempt; simp [failTrace, isRtSleep, List.countP_cons, ih]

set_option maxRecDepth 8000 in
/-- C1: `check_crc` computes CRC-16/Modbus (init `0xFFFF`, polynomial
`0xA001`, LSB first) over bytes 0–5 of the 8-byte reading and fails with
`AM232xCrcCheckError` carrying the received checksum `raw[7] << 8 | raw[6]`
and the computed checksum exactly when the two differ; the computed
checksum is a function of the 6-byte prefix alone, and the reference prefix
`[0x03, 0x04, 0x01, 0x02, 0x00, 0xC8]` yields `0x4250`. -/
theorem check_crc_spec (raw : List Nat) (_hlen : raw.length = 8) :
    ((check_crc raw = .ok ()) ↔ clc_crcsum raw = rcv_crcsum raw) ∧
    (∀ r c, check_crc raw = .error (.crcCheckError r c) ↔
      r = rcv_crcsum raw ∧ c = clc_crcsum raw ∧ c ≠ r) ∧
    (∀ e, check_crc raw = .error e →
      e = .crcCheckError (rcv_crcsum raw) (clc_crcsum raw)) ∧
    (∀ raw2 : List Nat, raw2.take 6 = raw.take 6 → clc_crcsum raw2 = clc_crcsum raw) ∧
    crc16 [0x03, 0x04, 0x01, 0x02, 0x00, 0xC8] = 0x4250 := by
  refine ⟨?_, ?_, ?_, ?_, ?_⟩
  · by_cases hc : rcv_crcsum raw = clc_crcsum raw
    · rw [check_crc, if_neg (by simp [hc])]
      simp [hc]
    · rw [check_crc, if_pos hc]
      constructor
      · intro h; cases h
      · intro h; exact absurd h.symm hc
  · intro r c
    by_cases hc : rcv_crcsum raw = clc_crcsum raw
    · rw [check_crc, if_neg (by simp [hc])]
      constructor
      · intro h; cases h
      · rintro ⟨rfl, rfl, hne⟩; exact absurd hc.symm hne
    · rw [check_crc, if_pos hc]
      simp only [Except.error.injEq, AM232xError.crcCheckError.injEq]
      constructor
      · rintro ⟨rfl, rfl⟩; exact ⟨rfl, rfl, fun h => hc h.symm⟩
      · rintro ⟨rfl, rfl, _⟩; exact ⟨rfl, rfl⟩
  · intro e
    by_cases hc : rcv_crcsum raw = clc_crcsum raw
    · rw [check_crc, if_neg (by simp [hc])]
      intro h; cases h
    · rw [check_crc, if_pos hc]
      simp only [Except.error.injEq]
      intro h; exact h.symm
  · intro raw2 hp; unfold clc_crcsum; rw [hp]
  · decide

/-- C2: `check_err` fails with `ReceiveAM232xDataError` carrying the status
byte exactly when `raw[2] ≥ 0x80`, and returns normally exactly when
`raw[2] < 0x80`. -/
theorem check_err_spec (raw : List Nat) :
    ((check_err raw = .error (.receiveDataError (raw.getD 2 0))) ↔ 0x80 ≤ raw.getD 2 0) ∧
    ((check_err raw = .ok ()) ↔ raw.getD 2 0 < 0x80) ∧
    (∀ e, check_err raw = .error e → e = .receiveDataError (raw.getD 2 0)) := by
  by_cases h : 0x80 ≤ raw.getD 2 0
  · refine ⟨?_, ?_, ?_⟩
    · rw [check_err, if_pos h]; exact iff_of_true rfl h
    · rw [check_err, if_pos h]
      constructor
      · intro hh; cases hh
      · intro hh; omega
    · intro e; rw [check_err, if_pos h]
      simp only [Except.error.injEq]
      intro hh; exact hh.symm
  · refine ⟨?_, ?_, ?_⟩
    · rw [check_err, if_neg h]
      constructor
      · intro hh; cases hh
      · intro hh; exact absurd hh h
    · rw [check_err, if_neg h]; exact iff_of_true rfl (by omega)
    · intro e; rw [check_err, if_neg h]
      intro hh; cases hh

/-- C4: on a transport that always raises `IOError`, `_func_i2c_retry`
invokes the transport exactly `retry_num + 1` times, sleeps the configured
wait before every retry (trace `failTrace`), and propagates the transport
error unmodified; on a first successful call it returns that call's result
immediately, with no sleep and no further invocation. -/
theorem func_i2c_retry_spec {ε α : Type} (f : Nat → Except ε α) (w n : Nat) :
    (∀ e, (∀ i, f i = .error e) →
      _func_i2c_retry f w 0 n = (.error e, failTrace w 0 n) ∧
      (failTrace w 0 n).countP isCall = n + 1 ∧
      (failTrace w 0 n).countP (isRtSleep w) = n) ∧
    (∀ a, f 0 = .ok a → _func_i2c_retry f w 0 n = (.ok a, [.call 0])) := by
  constructor
  · intro e hf
    exact ⟨func_retry_fail f e hf w n 0, failTrace_countCall w n 0, failTrace_countSleep w n 0⟩
  · intro a ha
    cases n <;> simp [_func_i2c_retry, ha]

/-- Witness for C4 at a concrete always-failing and a concrete
first-success transport. -/
theorem func_i2c_retry_spec_witness :
    ((∀ i, (fun _ : Nat => (.error 7 : Except Nat Nat)) i = .error 7) ∧
      (_func_i2c_retry (fun _ : Nat => (.error 7 : Except Nat Nat)) 20000 0 2
          = (.error 7, failTrace 20000 0 2) ∧
        (failTrace 20000 0 2).countP isCall = 2 + 1 ∧
        (failTrace 20000 0 2).countP (isRtSleep 20000) = 2)) ∧
    ((fun _ : Nat => (.ok 5 : Except Nat Nat)) 0 = .ok 5 ∧
      _func_i2c_retry (fun _ : Nat => (.ok 5 : Except Nat Nat)) 20000 0 2
        = (.ok 5, [.call 0])) :=
  ⟨⟨fun _ => rfl,
    (func_i2c_retry_spec (fun _ : Nat => (.error 7 : Except Nat Nat)) 20000 2).1 7
      (fun _ => rfl)⟩,
   ⟨rfl,
    (func_i2c_retry_spec (fun _ : Nat => (.ok 5 : Except Nat Nat)) 20000 2).2 5 rfl⟩⟩

/-- A `wakeup` call always leaves the session marked awake. -/
theorem wakeup_awake (ok : Bool) (s : AMState) : (wakeup ok s).1._wakeup = true := by
  by_cases hw : s._wakeup
  · rw [wakeup, if_pos hw]; exact hw
  · rw [wakeup, if_neg hw]

/-- C7: `wakeup` is idempotent: when the session is already marked awake it
performs no bus access and no sleep, and two successive calls issue the
dummy write exactly once. -/
theorem wakeup_idempotent (s : AMState) (ok1 ok2 : Bool) :
    (s._wakeup = true → wakeup ok1 s = (s, [])) ∧
    (wakeup ok2 (wakeup ok1 s).1 = ((wakeup ok1 s).1, [])) ∧
    (s._wakeup = false →
      ((wakeup ok1 s).2 ++ (wakeup ok2 (wakeup ok1 s).1).2).countP isWakeWrite = 1) := by
  refine ⟨fun hw => by rw [wakeup, if_pos hw], ?_, fun hw => ?_⟩
  · rw [wakeup, if_pos (wakeup_awake ok1 s)]
  · have h1 : wakeup ok1 s
        = ({ s with _wakeup := true },
           [Event.i2c_write_byte chip_addr 0x00 0x00 ok1, Event.sleep wait_wakeup]) := by
      rw [wakeup, if_neg (by simp [hw])]
    rw [h1, wakeup, if_pos rfl]
    simp [isWakeWrite]

/-- Witness for C7 at the freshly constructed state. -/
theorem wakeup_idempotent_witness :
    (initState._wakeup = true → wakeup false initState = (initState, [])) ∧
    (wakeup false (wakeup false initState).1 = ((wakeup false initState).1, [])) ∧
    (initState._wakeup = false →
      ((wakeup false initState).2
          ++ (wakeup false (wakeup false initState).1).2).countP isWakeWrite = 1) :=
  wakeup_idempotent initState false false

/-- C8: when the dummy write of `wakeup` raises an IO error (`ok = false`),
the error is swallowed: the call still marks the session awake and still
sleeps the fixed `wait_wakeup` delay, behaving exactly as on success except
for the recorded outcome of the write; by contrast the bus-level retry
wrapper used by every other operation never swallows a persistent transport
error but propagates it. -/
theorem wakeup_swallows_io_error (s : AMState) (h : s._wakeup = false) :
    (wakeup false s
      = ({ s with _wakeup := true },
         [Event.i2c_write_byte chip_addr 0x00 0x00 false, Event.sleep wait_wakeup])) ∧
    (wakeup false s).1 = (wakeup true s).1 ∧
    (wakeup false s).1._wakeup = true ∧
    Event.sleep wait_wakeup ∈ (wakeup false s).2 ∧
    (∀ (ε α : Type) (f : Nat → Except ε α) (w n : Nat) (e : ε),
      (∀ i, f i = .error e) → (_func_i2c_retry f w 0 n).1 = .error e) := by
  refine ⟨by rw [wakeup, if_neg (by simp [h])], ?_, ?_, ?_, ?_⟩
  · rw [wakeup, if_neg (by simp [h]), wakeup, if_neg (by simp [h])]
  · rw [wakeup, if_neg (by simp [h])]
  · rw [wakeup, if_neg (by simp [h])]
    simp
  · intro ε α f w n e hf
    rw [func_retry_fail f e hf w n 0]

/-- Witness for C8 at the freshly constructed state. -/
theorem wakeup_swallows_io_error_witness :
    initState._wakeup = false ∧
    ((wakeup false initState
      = ({ initState with _wakeup := true },
         [Event.i2c_write_byte chip_addr 0x00 0x00 false, Event.sleep wait_wakeup])) ∧
    (wakeup false initState).1 = (wakeup true initState).1 ∧
    (wakeup false initState).1._wakeup = true ∧
    Event.sleep wait_wakeup ∈ (wakeup false initState).2 ∧
    (∀ (ε α : Type) (f : Nat → Except ε α) (w n : Nat) (e : ε),
      (∀ i, f i = .error e) → (_func_i2c_retry f w 0 n).1 = .error e)) :=
  ⟨rfl, wakeup_swallows_io_error initState rfl⟩

/-- `measure` always ends in `measuredState`, whatever the starting
state. -/
theorem measure_fst (ok : Bool) (s : AMState) : (measure ok s).1 = measuredState := by
  obtain ⟨w, wm, m, rd, hh, tt, dd⟩ := s
  cases w <;> cases wm <;> rfl

/-- The trace of `measure` holds no bus read, no `wait_refresh` sleep, and
exactly one measurement command. -/
theorem measure_counts (ok : Bool) (s : AMState) :
    ((measure ok s).2).countP isRead = 0 ∧
    ((measure ok s).2).countP (isSleep wait_refresh) = 0 ∧
    ((measure ok s).2).countP isMeasureCmd = 1 := by
  obtain ⟨w, wm, m, rd, hh, tt, dd⟩ := s
  cases w <;> cases wm <;> exact ⟨rfl, rfl, rfl⟩

/-- A pass of the loop body from a non-measured state whose validation
succeeds: a full measure-plus-read cycle ending in `freshState`. -/
theorem readIter_fresh_done (fetch : Nat → List Nat) (ok ce cc : Bool) (idx : Nat)
    (s : AMState) (h : s._measured = false)
    (hv : validate ce cc (fetch idx) = .ok ()) :
    readIter fetch ok ce cc idx s
      = .done (.ok (fetch idx)) (freshState (fetch idx))
          ((measure ok s).2 ++ [Event.read_i2c_block_data 0x00 8]) := by
  rw [readIter]
  simp only [h, Bool.false_eq_true, if_false, measure_fst, measuredState]
  rw [hv]
  rfl

/-- A pass of the loop body from a non-measured state whose validation
fails: the cycle runs, the error is caught. -/
theorem readIter_fresh_caught (fetch : Nat → List Nat) (ok ce cc : Bool) (idx : Nat)
    (s : AMState) (e : AM232xError) (h : s._measured = false)
    (hv : validate ce cc (fetch idx) = .error e) :
    readIter fetch ok ce cc idx s
      = .caught e (freshState (fetch idx))
          ((measure ok s).2 ++ [Event.read_i2c_block_data 0x00 8]) := by
  rw [readIter]
  simp only [h, Bool.false_eq_true, if_false, measure_fst, measuredState]
  rw [hv]
  rfl

set_option maxRecDepth 100000 in
/-- `validate` on the corrupted reading `badRaw` raises the CRC error with
received checksum 0 and computed checksum 6912. -/
theorem validate_badRaw : validate true true badRaw = .error (.crcCheckError 0 6912) := rfl

set_option maxRecDepth 100000 in
/-- On a transport that always delivers `badRaw`, the `read()` loop starting
right after a validation failure runs exactly `r + 1` further full cycles
(trace `badTrace`) and raises the CRC error. -/
theorem readLoop_badRaw (ok : Bool) : ∀ (r idx : Nat),
    readLoop (fun _ => badRaw) ok true true wait_refresh idx r failState
      = (.error (.crcCheckError 0 6912), { failState with _measured := true },
         badTrace ok r) := by
  have hiter : ∀ idx, readIter (fun _ => badRaw) ok true true idx failState
      = .caught (.crcCheckError 0 6912) (freshState badRaw)
          ((measure ok failState).2 ++ [Event.read_i2c_block_data 0x00 8]) :=
    fun idx => readIter_fresh_caught (fun _ => badRaw) ok true true idx failState
      (.crcCheckError 0 6912) rfl validate_badRaw
  have hstate : ({ freshState badRaw with _measured := false } : AMState) = failState := rfl
  have htail : (measure ok failState).2 ++ [Event.read_i2c_block_data 0x00 8]
      = cycleTrace ok := rfl
  have hfst : ({ failState with _measured := true } : AMState) = freshState badRaw := rfl
  intro r
  induction r with
  | zero =>
    intro idx
    simp only [readLoop, hiter, htail, hfst, badTrace]
  | succ n ih =>
    intro idx
    simp only [readLoop, hiter, hstate, htail, hfst, ih (idx + 1), badTrace]

/-- Event counts of `badTrace`: `r + 1` bus reads, `r` outer-retry sleeps,
`r + 1` measurement commands. -/
theorem badTrace_counts (ok : Bool) : ∀ r : Nat,
    (badTrace ok r).countP isRead = r + 1 ∧
    (badTrace ok r).countP (isSleep wait_refresh) = r ∧
    (badTrace ok r).countP isMeasureCmd = r + 1 := by
  intro r
  have h1 : (cycleTrace ok).countP isRead = 1 := rfl
  have h2 : (cycleTrace ok).countP (isSleep wait_refresh) = 0 := rfl
  have h3 : (cycleTrace ok).countP isMeasureCmd = 1 := rfl
  induction r with
  | zero => exact ⟨h1, h2, h3⟩
  | succ n ih =>
    refine ⟨?_, ?_, ?_⟩ <;>
      simp [badTrace, List.countP_append, List.countP_cons, h1, h2, h3,
        ih.1, ih.2.1, ih.2.2, isRead, isSleep, isMeasureCmd] <;> omega

set_option maxRecDepth 100000 in
/-- C3: on a transport whose responses always carry a bad checksum,
`read()` (with validation on and the default outer wait) re-runs the full
measure-plus-read cycle `retry_num + 1` times in total, sleeping the outer
retry delay before each of the `retry_num` retries, and finally raises the
CRC error with no partial result. -/
theorem read_bad_crc_retry (retry_num : Nat) (ok : Bool) (s : AMState)
    (h : s._measured = false) :
    (read (fun _ => badRaw) ok true true retry_num wait_refresh s).1
      = .error (.crcCheckError 0 6912) ∧
    ((read (fun _ => badRaw) ok true true retry_num wait_refresh s).2.2).countP isRead
      = retry_num + 1 ∧
    ((read (fun _ => badRaw) ok true true retry_num wait_refresh s).2.2).countP
      (isSleep wait_refresh) = retry_num ∧
    ((read (fun _ => badRaw) ok true true retry_num wait_refresh s).2.2).countP isMeasureCmd
      = retry_num + 1 := by
  have hiter : readIter (fun _ => badRaw) ok true true 0 s
      = .caught (.crcCheckError 0 6912) (freshState badRaw)
          ((measure ok s).2 ++ [Event.read_i2c_block_data 0x00 8]) :=
    readIter_fresh_caught (fun _ => badRaw) ok true true 0 s
      (.crcCheckError 0 6912) h validate_badRaw
  have hmc := measure_counts ok s
  cases retry_num with
  | zero =>
    simp only [read, readLoop, hiter]
    refine ⟨by trivial, ?_, ?_, ?_⟩ <;>
      simp [List.countP_append, List.countP_cons, hmc.1, hmc.2.1, hmc.2.2,
        isRead, isSleep, isMeasureCmd]
  | succ n =>
    have hstate : ({ freshState badRaw with _measured := false } : AMState) = failState := rfl
    have hbt := badTrace_counts ok n
    simp only [read, readLoop, hiter, hstate, readLoop_badRaw ok n]
    refine ⟨by trivial, ?_, ?_, ?_⟩ <;>
      simp [List.countP_append, List.countP_cons, hmc.1, hmc.2.1, hmc.2.2,
        hbt.1, hbt.2.1, hbt.2.2, isRead, isSleep, isMeasureCmd, Nat.add_comm]

/-- Witness for C3: one outer retry from the freshly constructed state. -/
theorem read_bad_crc_retry_witness :
    initState._measured = false ∧
    ((read (fun _ => badRaw) false true true 1 wait_refresh initState).1
        = .error (.crcCheckError 0 6912) ∧
      ((read (fun _ => badRaw) false true true 1 wait_refresh initState).2.2).countP isRead
        = 2 ∧
      ((read (fun _ => badRaw) false true true 1 wait_refresh initState).2.2).countP
        (isSleep wait_refresh) = 1 ∧
      ((read (fun _ => badRaw) false true true 1 wait_refresh initState).2.2).countP
        isMeasureCmd = 2) :=
  ⟨rfl, read_bad_crc_retry 1 false initState rfl⟩

/-- C10: with both validation flags off, `read()` raises no
`AM232xError` whatever bytes the bus delivers: it returns the first
response unmodified after a single bus read, consuming no outer retry. -/
theorem read_unchecked (fetch : Nat → List Nat) (ok : Bool) (retry_num retry_wait : Nat)
    (s : AMState) (h : s._measured = false) :
    (read fetch ok false false retry_num retry_wait s).1 = .ok (fetch 0) ∧
    ((read fetch ok false false retry_num retry_wait s).2.2).countP isRead = 1 := by
  have hiter : readIter fetch ok false false 0 s
      = .done (.ok (fetch 0)) (freshState (fetch 0))
          ((measure ok s).2 ++ [Event.read_i2c_block_data 0x00 8]) :=
    readIter_fresh_done fetch ok false false 0 s h rfl
  have hmc := measure_counts ok s
  cases retry_num with
  | zero =>
    simp only [read, readLoop, hiter]
    exact ⟨by trivial, by simp [List.countP_append, List.countP_cons, hmc.1, isRead]⟩
  | succ n =>
    simp only [read, readLoop, hiter]
    exact ⟨by trivial, by simp [List.countP_append, List.countP_cons, hmc.1, isRead]⟩

/-- Witness for C10 at a response with a wrong checksum (but validation
off). -/
theorem read_unchecked_witness :
    initState._measured = false ∧
    ((read (fun _ => badRaw) false false false 3 wait_refresh initState).1 = .ok badRaw ∧
      ((read (fun _ => badRaw) false false false 3 wait_refresh initState).2.2).countP isRead
        = 1) :=
  ⟨rfl, read_unchecked (fun _ => badRaw) false 3 wait_refresh initState rfl⟩

/-- C5: from a cached validated reading, `humidity` computes
`(raw[2] << 8 | raw[3]) / 10.0` and `temperature` computes
`(raw[4] << 8 | raw[5]) / 10.0`; the reading with humidity field `0x0226`
and temperature field `0x00E7` yields 55.0 and 23.1. -/
theorem humidity_temperature_formula (fetch : Nat → List Nat) (ok : Bool)
    (s : AMState) (raw : List Nat) (hr : s._raw_data = some raw)
    (hh : s._humidity = none) (ht : s._temperature = none) :
    (humidity fetch ok s).1
      = .ok ((((raw.getD 2 0) <<< 8 ||| raw.getD 3 0 : ℕ) : ℚ) / 10) ∧
    (temperature fetch ok s).1
      = .ok ((((raw.getD 4 0) <<< 8 ||| raw.getD 5 0 : ℕ) : ℚ) / 10) ∧
    (humidity fetch ok exState).1 = .ok 55 ∧
    (temperature fetch ok exState).1 = .ok (231 / 10) := by
  have e1 : ((0x02 : ℕ) <<< 8 ||| 0x26) = 550 := rfl
  have e2 : ((0x00 : ℕ) <<< 8 ||| 0xE7) = 231 := rfl
  refine ⟨?_, ?_, ?_, ?_⟩
  · simp only [humidity, hh, _calc, hr]
  · simp only [temperature, ht, _calc, hr]
  · simp only [humidity, exState, initState, _calc, exRaw]
    norm_num [List.getD, e1]
  · simp only [temperature, exState, initState, _calc, exRaw]
    norm_num [List.getD, e2]

/-- C6: from a cached validated reading with no derived caches,
`discomfort` computes `0.81*T + 0.01*H*(0.99*T - 14.3) + 46.3` from the
temperature `T` and humidity `H` of that same reading; on the example
reading (H = 55.0, T = 23.1) the result is 69.72395, within `1e-9` of the
formula's value. -/
theorem discomfort_formula (fetch : Nat → List Nat) (ok : Bool)
    (s : AMState) (raw : List Nat) (hr : s._raw_data = some raw)
    (hh : s._humidity = none) (ht : s._temperature = none)
    (hd : s._discomfort = none) :
    (discomfort fetch ok s).1
      = .ok (81 / 100 * ((((raw.getD 4 0) <<< 8 ||| raw.getD 5 0 : ℕ) : ℚ) / 10)
          + 1 / 100 * ((((raw.getD 2 0) <<< 8 ||| raw.getD 3 0 : ℕ) : ℚ) / 10)
            * (99 / 100 * ((((raw.getD 4 0) <<< 8 ||| raw.getD 5 0 : ℕ) : ℚ) / 10)
                - 143 / 10)
          + 463 / 10) ∧
    (discomfort fetch ok exState).1 = .ok (1394479 / 20000) ∧
    |(1394479 / 20000 : ℚ)
        - (81 / 100 * (231 / 10) + 1 / 100 * 55 * (99 / 100 * (231 / 10) - 143 / 10)
            + 463 / 10)|
      ≤ 1 / 1000000000 := by
  have e1 : ((0x02 : ℕ) <<< 8 ||| 0x26) = 550 := rfl
  have e2 : ((0x00 : ℕ) <<< 8 ||| 0xE7) = 231 := rfl
  refine ⟨?_, ?_, by norm_num⟩
  · simp only [discomfort, hd, humidity, hh, _calc, hr, temperature, ht]
    congr 1
  · simp only [discomfort, humidity, temperature, _calc, exState, initState, exRaw]
    norm_num [List.getD, e1, e2]

/-- Witness for C5 at the example state. -/
theorem humidity_temperature_formula_witness :
    (exState._raw_data = some exRaw ∧ exState._humidity = none
      ∧ exState._temperature = none) ∧
    ((humidity (fun _ => []) false exState).1
        = .ok ((((exRaw.getD 2 0) <<< 8 ||| exRaw.getD 3 0 : ℕ) : ℚ) / 10) ∧
      (temperature (fun _ => []) false exState).1
        = .ok ((((exRaw.getD 4 0) <<< 8 ||| exRaw.getD 5 0 : ℕ) : ℚ) / 10) ∧
      (humidity (fun _ => []) false exState).1 = .ok 55 ∧
      (temperature (fun _ => []) false exState).1 = .ok (231 / 10)) :=
  ⟨⟨rfl, rfl, rfl⟩,
   humidity_temperature_formula (fun _ => []) false exState exRaw rfl rfl rfl⟩

/-- Witness for C6 at the example state. -/
theorem discomfort_formula_witness :
    (exState._raw_data = some exRaw ∧ exState._humidity = none
      ∧ exState._temperature = none ∧ exState._discomfort = none) ∧
    ((discomfort (fun _ => []) false exState).1
        = .ok (81 / 100 * ((((exRaw.getD 4 0) <<< 8 ||| exRaw.getD 5 0 : ℕ) : ℚ) / 10)
            + 1 / 100 * ((((exRaw.getD 2 0) <<< 8 ||| exRaw.getD 3 0 : ℕ) : ℚ) / 10)
              * (99 / 100 * ((((exRaw.getD 4 0) <<< 8 ||| exRaw.getD 5 0 : ℕ) : ℚ) / 10)
                  - 143 / 10)
            + 463 / 10) ∧
      (discomfort (fun _ => []) false exState).1 = .ok (1394479 / 20000) ∧
      |(1394479 / 20000 : ℚ)
          - (81 / 100 * (231 / 10) + 1 / 100 * 55 * (99 / 100 * (231 / 10) - 143 / 10)
              + 463 / 10)|
        ≤ 1 / 1000000000) :=
  ⟨⟨rfl, rfl, rfl, rfl⟩,
   discomfort_formula (fun _ => []) false exState exRaw rfl rfl rfl rfl⟩

/-- A `done` pass of the loop body always leaves raw data cached, and its
result is exactly those bytes. -/
theorem readIter_done_raw (fetch : Nat → List Nat) (ok ce cc : Bool) (idx : Nat)
    (s : AMState) (res : Except AM232xError (List Nat)) (s1 : AMState) (t1 : List Event)
    (h : readIter fetch ok ce cc idx s = .done res s1 t1) :
    ∃ raw, s1._raw_data = some raw ∧ res = .ok raw := by
  simp only [readIter] at h
  cases hraw : (if s._measured = true then (s, ([] : List Event)) else measure ok s).1._raw_data with
  | some raw =>
    simp only [hraw] at h
    injection h with h1 h2 h3
    exact ⟨raw, h2 ▸ hraw, h1.symm⟩
  | none =>
    simp only [hraw] at h
    cases hv : validate ce cc (fetch idx) with
    | ok u =>
      simp only [hv] at h
      injection h with h1 h2 h3
      subst h2
      exact ⟨fetch idx, rfl, h1.symm⟩
    | error e =>
      simp only [hv] at h
      cases h

/-- A `caught` pass of the loop body also leaves raw data cached (the bytes
that failed validation). -/
theorem readIter_caught_raw (fetch : Nat → List Nat) (ok ce cc : Bool) (idx : Nat)
    (s : AMState) (e : AM232xError) (s2 : AMState) (t2 : List Event)
    (h : readIter fetch ok ce cc idx s = .caught e s2 t2) :
    ∃ raw, s2._raw_data = some raw := by
  simp only [readIter] at h
  cases hraw : (if s._measured = true then (s, ([] : List Event)) else measure ok s).1._raw_data with
  | some raw => simp only [hraw] at h; cases h
  | none =>
    simp only [hraw] at h
    cases hv : validate ce cc (fetch idx) with
    | ok u => simp only [hv] at h; cases h
    | error e2 =>
      simp only [hv] at h
      injection h with h1 h2 h3
      subst h2
      exact ⟨fetch idx, rfl⟩

/-- The final state of the `read()` loop always carries raw data. -/
theorem readLoop_state_raw (fetch : Nat → List Nat) (ok ce cc : Bool) (w : Nat) :
    ∀ (r idx : Nat) (s : AMState),
      ∃ raw, ((readLoop fetch ok ce cc w idx r s).2.1)._raw_data = some raw := by
  intro r
  induction r with
  | zero =>
    intro idx s
    cases hit : readIter fetch ok ce cc idx s with
    | done res s1 t1 =>
      simp only [readLoop, hit]
      obtain ⟨raw, h1, _⟩ := readIter_done_raw fetch ok ce cc idx s res s1 t1 hit
      exact ⟨raw, h1⟩
    | caught e s2 t2 =>
      simp only [readLoop, hit]
      exact readIter_caught_raw fetch ok ce cc idx s e s2 t2 hit
  | succ n ih =>
    intro idx s
    cases hit : readIter fetch ok ce cc idx s with
    | done res s1 t1 =>
      simp only [readLoop, hit]
      obtain ⟨raw, h1, _⟩ := readIter_done_raw fetch ok ce cc idx s res s1 t1 hit
      exact ⟨raw, h1⟩
    | caught e s2 t2 =>
      simp only [readLoop, hit]
      exact ih (idx + 1) { s2 with _measured := false }

/-- The final state of the `read()` loop satisfies the cache invariant
outright. -/
theorem readLoop_cacheInv (fetch : Nat → List Nat) (ok ce cc : Bool) (w r idx : Nat)
    (s : AMState) : cacheInv ((readLoop fetch ok ce cc w idx r s).2.1) := by
  obtain ⟨raw, hr⟩ := readLoop_state_raw fetch ok ce cc w r idx s
  intro hn
  rw [hr] at hn
  cases hn

/-- When the `read()` loop returns bytes, those bytes are the cached raw
data of its final state. -/
theorem readLoop_ok_raw (fetch : Nat → List Nat) (ok ce cc : Bool) (w : Nat) :
    ∀ (r idx : Nat) (s : AMState) (raw : List Nat),
      (readLoop fetch ok ce cc w idx r s).1 = .ok raw →
      ((readLoop fetch ok ce cc w idx r s).2.1)._raw_data = some raw := by
  intro r
  induction r with
  | zero =>
    intro idx s raw h
    cases hit : readIter fetch ok ce cc idx s with
    | done res s1 t1 =>
      simp only [readLoop, hit] at h ⊢
      obtain ⟨raw2, h1, h2⟩ := readIter_done_raw fetch ok ce cc idx s res s1 t1 hit
      rw [h2] at h
      injection h with h3
      rw [h1, h3]
    | caught e s2 t2 =>
      simp only [readLoop, hit] at h
      cases h
  | succ n ih =>
    intro idx s raw h
    cases hit : readIter fetch ok ce cc idx s with
    | done res s1 t1 =>
      simp only [readLoop, hit] at h ⊢
      obtain ⟨raw2, h1, h2⟩ := readIter_done_raw fetch ok ce cc idx s res s1 t1 hit
      rw [h2] at h
      injection h with h3
      rw [h1, h3]
    | caught e s2 t2 =>
      simp only [readLoop, hit] at h ⊢
      exact ih (idx + 1) { s2 with _measured := false } raw h

/-- `_calc` always ends in a state carrying raw data. -/
theorem _calc_state_raw (fetch : Nat → List Nat) (ok : Bool) (hi lo : Nat) (s : AMState)
    (h : cacheInv s) :
    cacheInv ((_calc fetch ok hi lo s).2.1) ∧
    ((_calc fetch ok hi lo s).1 = (_calc fetch ok hi lo s).1 →
      ∃ raw, ((_calc fetch ok hi lo s).2.1)._raw_data = some raw) := by
  cases hr : s._raw_data with
  | some raw =>
    simp only [_calc, hr]
    exact ⟨h, fun _ => ⟨raw, rfl⟩⟩
  | none =>
    simp only [_calc, hr]
    cases ho : (read fetch ok true true 10 wait_refresh s).1 with
    | error e =>
      simp only [ho]
      exact ⟨readLoop_cacheInv fetch ok true true wait_refresh 10 0 s,
        fun _ => readLoop_state_raw fetch ok true true wait_refresh 10 0 s⟩
    | ok raw =>
      simp only [ho]
      exact ⟨readLoop_cacheInv fetch ok true true wait_refresh 10 0 s,
        fun _ => readLoop_state_raw fetch ok true true wait_refresh 10 0 s⟩

/-- The `humidity` accessor preserves the cache invariant. -/
theorem humidity_cacheInv (fetch : Nat → List Nat) (ok : Bool) (s : AMState)
    (h : cacheInv s) : cacheInv ((humidity fetch ok s).2.1) := by
  cases hc : s._humidity with
  | some q => simp only [humidity, hc]; exact h
  | none =>
    simp only [humidity, hc]
    cases ho : (_calc fetch ok 2 3 s).1 with
    | error e => simp only [ho]; exact (_calc_state_raw fetch ok 2 3 s h).1
    | ok q =>
      simp only [ho]
      obtain ⟨raw, hrw⟩ := (_calc_state_raw fetch ok 2 3 s h).2 rfl
      intro hn
      simp only [hrw] at hn
      cases hn

/-- The `temperature` accessor preserves the cache invariant. -/
theorem temperature_cacheInv (fetch : Nat → List Nat) (ok : Bool) (s : AMState)
    (h : cacheInv s) : cacheInv ((temperature fetch ok s).2.1) := by
  cases hc : s._temperature with
  | some q => simp only [temperature, hc]; exact h
  | none =>
    simp only [temperature, hc]
    cases ho : (_calc fetch ok 4 5 s).1 with
    | error e => simp only [ho]; exact (_calc_state_raw fetch ok 4 5 s h).1
    | ok q =>
      simp only [ho]
      obtain ⟨raw, hrw⟩ := (_calc_state_raw fetch ok 4 5 s h).2 rfl
      intro hn
      simp only [hrw] at hn
      cases hn

/-- When `temperature` succeeds, its final state carries raw data. -/
theorem temperature_ok_raw (fetch : Nat → List Nat) (ok : Bool) (s : AMState) (q : ℚ)
    (h : cacheInv s) (ho : (temperature fetch ok s).1 = .ok q) :
    ∃ raw, ((temperature fetch ok s).2.1)._raw_data = some raw := by
  cases hc : s._temperature with
  | some t =>
    simp only [temperature, hc]
    cases hr : s._raw_data with
    | some raw => exact ⟨raw, rfl⟩
    | none => rw [(h hr).2.1] at hc; cases hc
  | none =>
    simp only [temperature, hc]
    cases hcc : (_calc fetch ok 4 5 s).1 with
    | error e => rw [temperature, hc] at ho; simp only [hcc] at ho; cases ho
    | ok t =>
      simp only [hcc]
      obtain ⟨raw, hrw⟩ := (_calc_state_raw fetch ok 4 5 s h).2 rfl
      exact ⟨raw, hrw⟩

/-- The `discomfort` accessor preserves the cache invariant. -/
theorem discomfort_cacheInv (fetch : Nat → List Nat) (ok : Bool) (s : AMState)
    (h : cacheInv s) : cacheInv ((discomfort fetch ok s).2.1) := by
  cases hd : s._discomfort with
  | some q => simp only [discomfort, hd]; exact h
  | none =>
    simp only [discomfort, hd]
    cases o1 : (humidity fetch ok s).1 with
    | error e => simp only [o1]; exact humidity_cacheInv fetch ok s h
    | ok hum =>
      simp only [o1]
      have h1 : cacheInv ((humidity fetch ok s).2.1) := humidity_cacheInv fetch ok s h
      cases o2 : (temperature fetch ok (humidity fetch ok s).2.1).1 with
      | error e =>
        simp only [o2]
        exact temperature_cacheInv fetch ok (humidity fetch ok s).2.1 h1
      | ok temp =>
        simp only [o2]
        obtain ⟨raw, hrw⟩ :=
          temperature_ok_raw fetch ok (humidity fetch ok s).2.1 temp h1 o2
        intro hn
        simp only [hrw] at hn
        cases hn

/-- A pass of the loop body from `measuredState` with successful
validation: just the fresh bus read. -/
theorem readIter_measuredState_done (fetch : Nat → List Nat) (ok ce cc : Bool) (idx : Nat)
    (hv : validate ce cc (fetch idx) = .ok ()) :
    readIter fetch ok ce cc idx measuredState
      = .done (.ok (fetch idx)) (freshState (fetch idx))
          [Event.read_i2c_block_data 0x00 8] := by
  rw [readIter]
  simp only [measuredState]
  rw [hv]
  rfl

/-- A pass of the loop body from `measuredState` with failing validation:
the fresh bus read followed by the caught error. -/
theorem readIter_measuredState_caught (fetch : Nat → List Nat) (ok ce cc : Bool) (idx : Nat)
    (e : AM232xError) (hv : validate ce cc (fetch idx) = .error e) :
    readIter fetch ok ce cc idx measuredState
      = .caught e (freshState (fetch idx)) [Event.read_i2c_block_data 0x00 8] := by
  rw [readIter]
  simp only [measuredState]
  rw [hv]
  rfl

/-- Starting from `measuredState` (the state right after `measure()`),
`read()` always performs a fresh 8-byte bus read from register `0x00`. -/
theorem read_measuredState_mem (fetch : Nat → List Nat) (ok ce cc : Bool) (rn rw : Nat) :
    Event.read_i2c_block_data 0x00 8 ∈ (read fetch ok ce cc rn rw measuredState).2.2 := by
  cases rn with
  | zero =>
    cases hv : validate ce cc (fetch 0) with
    | ok u =>
      simp only [read, readLoop, readIter_measuredState_done fetch ok ce cc 0 hv]
      simp
    | error e =>
      simp only [read, readLoop, readIter_measuredState_caught fetch ok ce cc 0 e hv]
      simp
  | succ n =>
    cases hv : validate ce cc (fetch 0) with
    | ok u =>
      simp only [read, readLoop, readIter_measuredState_done fetch ok ce cc 0 hv]
      simp
    | error e =>
      simp only [read, readLoop, readIter_measuredState_caught fetch ok ce cc 0 e hv]
      simp

/-- C9: `measure()` deletes the cached raw reading and all three derived
caches, so the next `read()` performs a fresh 8-byte bus read from register
`0x00`; and the invariant "derived caches are absent whenever the raw
reading is absent" is preserved by every operation of the session. -/
theorem measure_invalidates (ok : Bool) (s : AMState) (h : cacheInv s) :
    ((measure ok s).1._raw_data = none ∧ (measure ok s).1._humidity = none ∧
      (measure ok s).1._temperature = none ∧ (measure ok s).1._discomfort = none) ∧
    (∀ (fetch : Nat → List Nat) (ce cc : Bool) (rn rw : Nat),
      Event.read_i2c_block_data 0x00 8
        ∈ (read fetch ok ce cc rn rw (measure ok s).1).2.2) ∧
    (cacheInv (wakeup ok s).1 ∧ cacheInv (set_write_mode s).1 ∧
      cacheInv (measure ok s).1 ∧
      (∀ (fetch : Nat → List Nat) (ce cc : Bool) (rn rw : Nat),
        cacheInv (read fetch ok ce cc rn rw s).2.1) ∧
      (∀ fetch : Nat → List Nat,
        cacheInv (humidity fetch ok s).2.1 ∧ cacheInv (temperature fetch ok s).2.1 ∧
        cacheInv (discomfort fetch ok s).2.1)) := by
  refine ⟨?_, ?_, ?_, ?_, ?_, ?_, ?_⟩
  · rw [measure_fst]
    exact ⟨rfl, rfl, rfl, rfl⟩
  · intro fetch ce cc rn rw
    rw [measure_fst]
    exact read_measuredState_mem fetch ok ce cc rn rw
  · by_cases hw : s._wakeup
    · rw [wakeup, if_pos hw]; exact h
    · rw [wakeup, if_neg hw]; exact fun hn => h hn
  · rw [set_write_mode]; exact fun hn => h hn
  · rw [measure_fst]; exact fun _ => ⟨rfl, rfl, rfl⟩
  · intro fetch ce cc rn rw
    exact readLoop_cacheInv fetch ok ce cc rw rn 0 s
  · intro fetch
    exact ⟨humidity_cacheInv fetch ok s h, temperature_cacheInv fetch ok s h,
      discomfort_cacheInv fetch ok s h⟩

/-- Witness for C9 at the freshly constructed state. -/
theorem measure_invalidates_witness :
    cacheInv initState ∧
    (((measure false initState).1._raw_data = none ∧
        (measure false initState).1._humidity = none ∧
        (measure false initState).1._temperature = none ∧
        (measure false initState).1._discomfort = none) ∧
      (∀ (fetch : Nat → List Nat) (ce cc : Bool) (rn rw : Nat),
        Event.read_i2c_block_data 0x00 8
          ∈ (read fetch false ce cc rn rw (measure false initState).1).2.2) ∧
      (cacheInv (wakeup false initState).1 ∧ cacheInv (set_write_mode initState).1 ∧
        cacheInv (measure false initState).1 ∧
        (∀ (fetch : Nat → List Nat) (ce cc : Bool) (rn rw : Nat),
          cacheInv (read fetch false ce cc rn rw initState).2.1) ∧
        (∀ fetch : Nat → List Nat,
          cacheInv (humidity fetch false initState).2.1 ∧
          cacheInv (temperature fetch false initState).2.1 ∧
          cacheInv (discomfort fetch false initState).2.1))) :=
  ⟨fun _ => ⟨rfl, rfl, rfl⟩,
   measure_invalidates false initState (fun _ => ⟨rfl, rfl, rfl⟩)⟩

/-- Witness for C1 at the example reading. -/
theorem check_crc_spec_witness :
    exRaw.length = 8 ∧
    (((check_crc exRaw = .ok ()) ↔ clc_crcsum exRaw = rcv_crcsum exRaw) ∧
      (∀ r c, check_crc exRaw = .error (.crcCheckError r c) ↔
        r = rcv_crcsum exRaw ∧ c = clc_crcsum exRaw ∧ c ≠ r) ∧
      (∀ e, check_crc exRaw = .error e →
        e = .crcCheckError (rcv_crcsum exRaw) (clc_crcsum exRaw)) ∧
      (∀ raw2 : List Nat, raw2.take 6 = exRaw.take 6 → clc_crcsum raw2 = clc_crcsum exRaw) ∧
      crc16 [0x03, 0x04, 0x01, 0x02, 0x00, 0xC8] = 0x4250) :=
  ⟨rfl, check_crc_spec exRaw rfl⟩

/-- Witness for C2 at a reading with a clear status byte. -/
theorem check_err_spec_witness :
    ((check_err badRaw = .error (.receiveDataError (badRaw.getD 2 0)))
        ↔ 0x80 ≤ badRaw.getD 2 0) ∧
    ((check_err badRaw = .ok ()) ↔ badRaw.getD 2 0 < 0x80) ∧
    (∀ e, check_err badRaw = .error e → e = .receiveDataError (badRaw.getD 2 0)) :=
  check_err_spec badRaw

end AM232x

